import Mathlib

/-!
Shallow embedding of the betamax interaction cassette engine
(`src/betamax/{adapter,options,configure,recorder,exceptions}.py`).

Python dicts are embedded as association lists with unique keys, looked up
by first occurrence; machine-level details that the claims do not touch
(connection pooling, file I/O) are modelled by explicit fields.  The
modules `betamax/cassette.py`, `betamax/matchers` and `betamax/serializers`
are not part of the source tree under verification; every definition that
stands in for them carries a doc comment starting `Modelled from the
spec:`.
-/

set_option maxHeartbeats 1000000

namespace BetamaxSpec

/-- A value stored in a betamax options dictionary.  Python is dynamically
typed; the values that actually flow through the options component are
`None`, strings, numbers, booleans, lists of matcher names, and lists of
placeholder dicts, which this inductive covers.  Numbers are modelled as
integers. -/
inductive OptVal where
  | pynone
  | str (s : String)
  | num (n : Int)
  | bool (b : Bool)
  | strList (l : List String)
  | dicts (l : List (List (String × String)))
deriving Repr, DecidableEq

/-- Python truthiness of an `OptVal` (`None`, `0`, `False`, empty string and
empty list are falsy). -/
def OptVal.pyTruthy : OptVal → Bool
  | .pynone => false
  | .str s => !s.isEmpty
  | .num n => n != 0
  | .bool b => b
  | .strList l => !l.isEmpty
  | .dicts l => !l.isEmpty

/-- Python `d.get(k)` / `d.get(k, None)` on a dict, embedded as first-match
lookup in an association list. -/
def pyDictGet {α : Type} (d : List (String × α)) (k : String) : Option α :=
  (d.find? (fun kv => kv.1 = k)).map Prod.snd

/-- Python `d[k] = v` on a dict: replace the value at an existing key in
place (keys are unique in a dict, so replacing the first occurrence is the
dict semantics), or append a fresh binding at the end. -/
def pyDictSet {α : Type} (d : List (String × α)) (k : String) (v : α) :
    List (String × α) :=
  match d with
  | [] => [(k, v)]
  | kv :: rest => if kv.1 = k then (k, v) :: rest else kv :: pyDictSet rest k v

/-- Python `del d[k]` on a dict. -/
def pyDictDel {α : Type} (d : List (String × α)) (k : String) :
    List (String × α) :=
  d.filter (fun kv => kv.1 ≠ k)

/-- Python `d.update(items)` on a dict: assign each pair of `upd` in order. -/
def pyDictUpdate {α : Type} (d upd : List (String × α)) : List (String × α) :=
  upd.foldl (fun acc kv => pyDictSet acc kv.1 kv.2) d

/-- Python `k in d` on a dict. -/
def pyDictMem {α : Type} (d : List (String × α)) (k : String) : Bool :=
  d.any (fun kv => kv.1 = k)

/- ### options.py -/

/-- Modelled from the spec: the matcher registry (`betamax/matchers` is not
under src/).  §4.2: "Built-in matchers compare method, full URI, headers
..., and body", registered by name. -/
def matcher_registry_keys : List String := ["method", "uri", "headers", "body"]

/-- Modelled from the spec: the serializer registry (`betamax/serializers`
is not under src/).  The default serializer is the `json` format. -/
def serializer_registry_keys : List String := ["json"]

/-- Embeds `validate_record` of options.py: the record mode must be one of the
four literal strings. -/
def validate_record (record : OptVal) : Bool :=
  decide (record ∈ [OptVal.str "all", OptVal.str "new_episodes",
                    OptVal.str "none", OptVal.str "once"])

/-- A Python exception escaping a validator under Python 3 semantics:
`TypeError` from an unsupported comparison or iteration, `AttributeError`
from calling `.keys()` on a non-dict. -/
inductive PyExc where
  | typeError
  | attributeError
deriving Repr, DecidableEq

/-- Embeds `validate_matchers` of options.py,
`all(m in available_matchers for m in matchers)`, under Python 3
semantics: a list of strings is checked name by name; a string is iterated
character by character (each one-character string is membership-tested, so
only the empty string can pass); a list of dicts membership-tests each
dict against the registered names (a dict never equals a string, so only
the empty list passes); `None`, a number or a boolean is not iterable and
raises `TypeError`. -/
def validate_matchers (matchers : OptVal) : Except PyExc Bool :=
  match matchers with
  | .strList l => .ok (l.all (fun m => matcher_registry_keys.contains m))
  | .str s =>
      .ok (s.data.all (fun c => matcher_registry_keys.contains (String.singleton c)))
  | .dicts l => .ok (l.all (fun _ => false))
  | .pynone => .error .typeError
  | .num _ => .error .typeError
  | .bool _ => .error .typeError

/-- Embeds `validate_serializer` of options.py: the serializer name must be
registered. -/
def validate_serializer (serializer : OptVal) : Bool :=
  match serializer with
  | .str s => serializer_registry_keys.contains s
  | _ => false

/-- Insert a string into an ascending sorted list (helper for the Python
`sorted` builtin on dict keys). -/
def insertAsc (s : String) : List String → List String
  | [] => [s]
  | t :: ts => if t < s then t :: insertAsc s ts else s :: t :: ts

/-- The Python `sorted` builtin on a list of strings. -/
def sortStrings (l : List String) : List String := l.foldr insertAsc []

/-- Embeds `validate_placeholders` of options.py,
`all(sorted(list(p.keys())) == keys for p in placeholders)`, under Python 3
semantics: a list of dicts is checked dict by dict for exactly the keys
`placeholder` and `replace`; iterating a non-empty string or a non-empty
list of strings reaches `p.keys()` on a string and raises
`AttributeError` (the empty iterable passes vacuously); `None`, a number
or a boolean is not iterable and raises `TypeError`. -/
def validate_placeholders (placeholders : OptVal) : Except PyExc Bool :=
  match placeholders with
  | .dicts l =>
      .ok (l.all (fun p => sortStrings (p.map Prod.fst) = ["placeholder", "replace"]))
  | .str s => if s.isEmpty then .ok true else .error .attributeError
  | .strList l => if l.isEmpty then .ok true else .error .attributeError
  | .pynone => .error .typeError
  | .num _ => .error .typeError
  | .bool _ => .error .typeError

/-- Embeds `lambda x: x is None or x > 0`, the validator of
`re_record_interval`, under Python 3 semantics: `None` passes, a number is
compared against 0, a boolean is its own comparison result (`True > 0` is
`True`, `False > 0` is `False`), and a string, a list or a dict does not
support `>` against an integer and raises `TypeError`. -/
def validate_re_record_interval (x : OptVal) : Except PyExc Bool :=
  match x with
  | .pynone => .ok true
  | .num n => .ok (decide (0 < n))
  | .bool b => .ok b
  | .str _ => .error .typeError
  | .strList _ => .error .typeError
  | .dicts _ => .error .typeError

/-- Embeds `lambda x: x in [True, False]`, the validator of
`preserve_exact_body_bytes`: list membership never raises, and Python's
`==` equates booleans with the integers 0 and 1, so `True`, `False`, `0`
and `1` pass and everything else fails. -/
def validate_preserve_exact_body_bytes (x : OptVal) : Except PyExc Bool :=
  match x with
  | .bool _ => .ok true
  | .num n => .ok (decide (n = 0 ∨ n = 1))
  | _ => .ok false

/-- Embeds `Options.valid_options`, the fixed registry of per-key validation
predicates: `none` means the key is unrecognized; a recognized key yields
its predicate's verdict or the Python exception it raises. -/
def Options.valid_options_check (key : String) (value : OptVal) :
    Option (Except PyExc Bool) :=
  if key = "match_requests_on" then some (validate_matchers value)
  else if key = "re_record_interval" then some (validate_re_record_interval value)
  else if key = "record" then some (.ok (validate_record value))
  else if key = "serialize" then some (.ok (validate_serializer value))
  else if key = "serialize_with" then some (.ok (validate_serializer value))
  else if key = "preserve_exact_body_bytes" then
    some (validate_preserve_exact_body_bytes value)
  else if key = "placeholders" then some (validate_placeholders value)
  else none

/-- One iteration of the `Options.validate` loop body: an unrecognized key,
or a recognized key whose value fails its predicate, is deleted from the
live dict; a validator that raises aborts the whole loop with its
exception. -/
def Options.validateStep (d : List (String × OptVal)) (kv : String × OptVal) :
    Except PyExc (List (String × OptVal)) :=
  match Options.valid_options_check kv.1 kv.2 with
  | none => .ok (pyDictDel d kv.1)
  | some (.ok true) => .ok d
  | some (.ok false) => .ok (pyDictDel d kv.1)
  | some (.error e) => .error e

/-- The `Options.validate` loop over the snapshot `l`, mutating the live
dict `d`, propagating the first validator exception. -/
def Options.validateLoop :
    List (String × OptVal) → List (String × OptVal) →
    Except PyExc (List (String × OptVal))
  | [], d => .ok d
  | kv :: rest, d =>
      match Options.validateStep d kv with
      | .ok d' => Options.validateLoop rest d'
      | .error e => .error e

/-- Embeds `Options.validate`: iterate over a snapshot of
`list(self.data.items())` while deleting from the live dict; an exception
raised by a validator escapes. -/
def Options.validateData (data : List (String × OptVal)) :
    Except PyExc (List (String × OptVal)) :=
  Options.validateLoop data data

/-- Embeds `Options.defaults`, the class-level defaults table of options.py. -/
def Options.class_defaults : List (String × OptVal) :=
  [("match_requests_on", .strList ["method", "uri"]),
   ("re_record_interval", .pynone),
   ("record", .str "once"),
   ("serialize", .pynone),
   ("serialize_with", .str "json"),
   ("preserve_exact_body_bytes", .bool false),
   ("placeholders", .dicts [])]

/-- The process-wide mutable state of the library: the default cassette
options table (`Cassette.default_cassette_options`, a class attribute of
the cassette module) and `Configuration.CASSETTE_LIBRARY_DIR`.  Python
mutates these in place; the embedding threads this record explicitly. -/
structure Globals where
  default_cassette_options : List (String × OptVal)
  CASSETTE_LIBRARY_DIR : String
deriving Repr, DecidableEq

/-- Modelled from the spec: the initial value of
`Cassette.default_cassette_options` (cassette.py is not under src/).
§4.1/§4.3: the defaults are record mode `once`, matching on method and
uri, no re-record interval, no placeholders, readable (non byte-exact)
bodies; the initial library directory is the literal in configure.py. -/
def initGlobals : Globals :=
  { default_cassette_options :=
      [("record_mode", .str "once"),
       ("match_requests_on", .strList ["method", "uri"]),
       ("re_record_interval", .pynone),
       ("placeholders", .dicts []),
       ("preserve_exact_body_bytes", .bool false)],
    CASSETTE_LIBRARY_DIR := "vcr/cassettes" }

/-- Embeds `translate_cassette_options` of options.py: yield the default cassette
options with the `record_mode` key renamed to `record`. -/
def translate_cassette_options (table : List (String × OptVal)) :
    List (String × OptVal) :=
  table.map (fun kv => if kv.1 = "record_mode" then ("record", kv.2) else kv)

/-- The `Options` object of options.py: a validated data dict plus an
instance defaults dict. -/
structure Options where
  data : List (String × OptVal)
  defaults : List (String × OptVal)
deriving Repr, DecidableEq

/-- The instance defaults `Options.__init__` builds:
`Options.defaults.copy()` updated with `translate_cassette_options()`. -/
def Options.instance_defaults (g : Globals) : List (String × OptVal) :=
  pyDictUpdate Options.class_defaults
    (translate_cassette_options g.default_cassette_options)

/-- Embeds `Options.__init__`: store the raw data, validate it in place
(an exception raised by a validator escapes the constructor), then build
the instance defaults from the class defaults updated with the translated
process-wide default cassette options. -/
def Options.init (g : Globals) (data : List (String × OptVal)) :
    Except PyExc Options :=
  match Options.validateData data with
  | .ok d => .ok { data := d, defaults := Options.instance_defaults g }
  | .error e => .error e

/-- Embeds `Options.__getitem__`: `self.data.get(key, self.defaults.get(key))`. -/
def Options.getitem (o : Options) (key : String) : OptVal :=
  match pyDictGet o.data key with
  | some v => v
  | none => (pyDictGet o.defaults key).getD .pynone

/-- Embeds `Options.__contains__`: `key in self.data`. -/
def Options.contains (o : Options) (key : String) : Bool :=
  pyDictMem o.data key

/-- The survival predicate the validate loop implements: the key is
recognized and its value passes the per-key predicate (without raising). -/
def validEntry (kv : String × OptVal) : Bool :=
  match Options.valid_options_check kv.1 kv.2 with
  | some (.ok b) => b
  | _ => false

/-- Whether an entry's validator raises a Python exception. -/
def entryRaises (kv : String × OptVal) : Bool :=
  match Options.valid_options_check kv.1 kv.2 with
  | some (.error _) => true
  | _ => false

/- ### HTTP request/response/interaction data model -/

/-- The parts of a `requests.PreparedRequest` betamax reads. -/
structure PyRequest where
  method : String
  url : String
  headers : List (String × String)
  body : String
deriving Repr, DecidableEq

/-- The parts of a `requests.Response` betamax produces or persists.
`connection` holds the Python identity (object id) of the adapter the
response back-references, when set. -/
structure PyResponse where
  status_code : Nat
  headers : List (String × String)
  content : String
  connection : Option Nat := none
deriving Repr, DecidableEq

/-- One recorded request/response pair; `recorded_at` is a UTC timestamp in
microseconds since the epoch. -/
structure Interaction where
  request : PyRequest
  response : PyResponse
  recorded_at : Int
deriving Repr, DecidableEq

/- ### Cassette (betamax/cassette.py is not under src/; modelled from the
spec where noted) -/

/-- A cassette: the named interaction collection plus its operating policy.
`initially_empty` records, once at load time, whether the cassette had no
content when loaded — this drives the `once` record mode degradation. -/
structure Cassette where
  cassette_name : String
  serialize_format : String
  placeholders : List (String × String)
  record_mode : String
  match_options : List String
  preserve_exact_body_bytes : Bool
  cassette_library_dir : String
  interactions : List Interaction
  initially_empty : Bool
deriving Repr, DecidableEq

/-- Coerce an `OptVal` to the string betamax expects there (the validated
options guarantee a string). -/
def asStr : OptVal → String
  | .str s => s
  | _ => ""

/-- Coerce an `OptVal` to the string list betamax expects there. -/
def asStrList : OptVal → List String
  | .strList l => l
  | _ => []

/-- Coerce an `OptVal` to the number betamax expects there. -/
def asNum : OptVal → Int
  | .num n => n
  | _ => 0

/-- Coerce an `OptVal` to the boolean betamax expects there. -/
def asBool : OptVal → Bool
  | .bool b => b
  | _ => false

/-- Turn a placeholder dict into its `(placeholder, replace)` pair. -/
def placeholderPair (d : List (String × String)) : String × String :=
  ((pyDictGet d "placeholder").getD "", (pyDictGet d "replace").getD "")

/-- Modelled from the spec: the `Cassette` constructor (cassette.py is not
under src/).  It stores the name, serializer and placeholders, takes its
record mode and byte-exactness from the passed options with the
process-wide default table as fallback, and loads the existing file
content `disk` (empty when the file does not exist), remembering whether
the cassette started empty. -/
def Cassette.construct (g : Globals) (name serialize : String)
    (placeholders : List (String × String)) (record preserve clib : Option OptVal)
    (disk : List Interaction) : Cassette :=
  { cassette_name := name,
    serialize_format := serialize,
    placeholders := placeholders,
    record_mode := match record with
      | some (.str s) => s
      | _ => asStr ((pyDictGet g.default_cassette_options "record_mode").getD
                      (.str "once")),
    match_options := asStrList
      ((pyDictGet g.default_cassette_options "match_requests_on").getD
        (.strList ["method", "uri"])),
    preserve_exact_body_bytes := match preserve with
      | some (.bool b) => b
      | _ => asBool
          ((pyDictGet g.default_cassette_options "preserve_exact_body_bytes").getD
            (.bool false)),
    cassette_library_dir := match clib with
      | some (.str s) => s
      | _ => g.CASSETTE_LIBRARY_DIR,
    interactions := disk,
    initially_empty := disk.isEmpty }

/-- Modelled from the spec: `Cassette.clear` (cassette.py is not under
src/).  §4.3: the entire interaction collection is cleared and the stale
fixture "is treated as if the cassette never existed", so the load-time
emptiness flag is set as well. -/
def Cassette.clear (c : Cassette) : Cassette :=
  { c with interactions := [], initially_empty := true }

/-- Modelled from the spec: `Cassette.earliest_recorded_date` (cassette.py
is not under src/).  §3: the minimum `recorded_at` over all interactions,
or an "infinitely old" sentinel when the cassette is empty. -/
def infinitelyOld : Int := -(10 ^ 18)

/-- Minimum `recorded_at` of a list of interactions (sentinel when empty). -/
def earliestOf (l : List Interaction) : Int :=
  match l.map Interaction.recorded_at with
  | [] => infinitelyOld
  | t :: ts => ts.foldl min t

/-- Derived attribute `Cassette.earliest_recorded_date`. -/
def Cassette.earliest_recorded_date (c : Cassette) : Int :=
  earliestOf c.interactions

/-- Modelled from the spec: a built-in matcher applied by name (§4.2,
betamax/matchers is not under src/): method, full URI, headers and body
comparison of the live request against the recorded one. -/
def matcherApplies (name : String) (live recorded : PyRequest) : Bool :=
  if name = "method" then live.method = recorded.method
  else if name = "uri" then live.url = recorded.url
  else if name = "headers" then live.headers = recorded.headers
  else if name = "body" then live.body = recorded.body
  else false

/-- Modelled from the spec: `Cassette.find_match` (cassette.py is not
under src/).  §4.2: scan the interactions in storage order and return the
first one for which every configured matcher returns true. -/
def Cassette.find_match (c : Cassette) (request : PyRequest) :
    Option Interaction :=
  c.interactions.find?
    (fun i => c.match_options.all (fun m => matcherApplies m request i.request))

/-- Modelled from the spec: `Cassette.is_recording` (cassette.py is not
under src/).  §4.3 record-mode state machine: `all` and `new_episodes`
always permit appending, `none` never does, and `once` permits it exactly
when the cassette was empty or absent at load time. -/
def Cassette.is_recording (c : Cassette) : Bool :=
  match c.record_mode with
  | "all" => true
  | "new_episodes" => true
  | "none" => false
  | "once" => c.initially_empty
  | _ => false

/-- Placeholder redaction on save (§4.4): every occurrence of the literal
`replace` text becomes the `placeholder` token, in declaration order. -/
def redact (placeholders : List (String × String)) (s : String) : String :=
  placeholders.foldl (fun acc pr => acc.replace pr.2 pr.1) s

/-- Reverse placeholder substitution on replay (§4.4): every placeholder
token becomes its literal text again. -/
def unredact (placeholders : List (String × String)) (s : String) : String :=
  placeholders.foldl (fun acc pr => acc.replace pr.1 pr.2) s

/-- Redact a request's body and header values for storage. -/
def redactRequest (placeholders : List (String × String)) (r : PyRequest) :
    PyRequest :=
  { r with
    headers := r.headers.map (fun kv => (kv.1, redact placeholders kv.2)),
    body := redact placeholders r.body }

/-- Redact a response's body and header values for storage. -/
def redactResponse (placeholders : List (String × String)) (r : PyResponse) :
    PyResponse :=
  { r with
    headers := r.headers.map (fun kv => (kv.1, redact placeholders kv.2)),
    content := redact placeholders r.content }

/-- Modelled from the spec: `Cassette.save_interaction` (cassette.py is not
under src/).  §4.3: construct an Interaction from the live response/request
pair, apply placeholder redaction to the outgoing-to-storage request and
response, and append it to `interactions`. -/
def Cassette.save_interaction (c : Cassette) (response : PyResponse)
    (request : PyRequest) (now : Int) : Cassette :=
  { c with interactions := c.interactions ++
      [{ request := redactRequest c.placeholders request,
         response := redactResponse c.placeholders response,
         recorded_at := now }] }

/-- Modelled from the spec: `Interaction.as_response` (cassette.py is not
under src/).  §4.5/§4.4: synthesize a response object (status, headers,
body) from the stored interaction, applying the reverse placeholder
substitution on replay. -/
def Interaction.as_response (i : Interaction)
    (placeholders : List (String × String)) : PyResponse :=
  { status_code := i.response.status_code,
    headers := i.response.headers.map (fun kv => (kv.1, unredact placeholders kv.2)),
    content := unredact placeholders i.response.content,
    connection := i.response.connection }

/- ### adapter.py -/

/-- A real transport handler preserved from the host session: its Python
identity and its `send` behaviour (a pure request-to-response function in
this embedding). -/
structure RealAdapter where
  ref : Nat
  send : PyRequest → PyResponse

/-- A handler mounted on a `requests.Session`: either an original real
transport adapter, or the interception adapter (referenced by identity,
since its behaviour is given by `BetamaxAdapter.send` below). -/
inductive Handler where
  | real (a : RealAdapter)
  | betamax (ref : Nat)

/-- Embeds `BetamaxError` of exceptions.py. -/
structure BetamaxError where
  message : String
deriving Repr, DecidableEq

/-- An exception escaping `BetamaxAdapter.send`: either a deliberate
`BetamaxError`, or the `AttributeError`/`IndexError` Python would raise on
the (unreachable in normal use) degenerate recording paths. -/
inductive SendError where
  | betamaxError (e : BetamaxError)
  | pyAttributeError
  | pyIndexError
deriving Repr, DecidableEq

/-- The interception adapter of adapter.py.  `ref` is the Python object
identity, `closed` models the lifecycle of the pooled `http_adapter` that
`close()` shuts down, and `options` is the accumulated `self.options`
dict. -/
structure BetamaxAdapter where
  ref : Nat
  cassette : Option Cassette := none
  cassette_name : Option String := none
  old_adapters : List (String × Handler) := []
  closed : Bool := false
  serialize : Option String := none
  options : List (String × OptVal) := []

/-- Embeds `BetamaxAdapter.eject_cassette`: eject the loaded cassette, if any, and
drop the reference (`Cassette.eject` flushes to disk; persistence is
outside this embedding). -/
def BetamaxAdapter.eject_cassette (a : BetamaxAdapter) : BetamaxAdapter :=
  { a with cassette := none }

/-- Embeds `BetamaxAdapter.close`: close the underlying pooled HTTP adapter. -/
def BetamaxAdapter.close (a : BetamaxAdapter) : BetamaxAdapter :=
  { a with closed := true }

/-- Microseconds per day (`datetime.timedelta(days=1)`). -/
def microsPerDay : Int := 86400000000

/-- Python `datetime.timedelta(n)`, i.e. `n` days, in microseconds. -/
def daysMicros (n : Int) : Int := n * microsPerDay

/-- Python `datetime.timedelta.max` (999999999 days, 23:59:59.999999) in
microseconds. -/
def timedeltaMax : Int := 999999999 * 86400000000 + 86399999999

/-- Embeds `BetamaxAdapter.load_cassette`: merge the validated options into
`self.options`, construct the cassette (loading the existing on-disk
interactions `disk`), force the record mode and match options from the
options, and clear the whole collection when the configured
re-record interval (in days) is exceeded by the wall-clock age of the
earliest recording.  `now` is `datetime.utcnow()` in microseconds. -/
def BetamaxAdapter.load_cassette (a : BetamaxAdapter) (g : Globals)
    (cassette_name serialize : String) (options : Options)
    (disk : List Interaction) (now : Int) : BetamaxAdapter :=
  let opts := pyDictUpdate a.options options.data
  let placeholders := match pyDictGet opts "placeholders" with
    | some (.dicts l) => l.map placeholderPair
    | _ => []
  let match_requests_on := match pyDictGet opts "match_requests_on" with
    | some v => v
    | none => (pyDictGet g.default_cassette_options "match_requests_on").getD
        .pynone
  let preserve_exact_body_bytes := pyDictGet opts "preserve_exact_body_bytes"
  let cassette := Cassette.construct g cassette_name serialize placeholders
    (pyDictGet opts "record") preserve_exact_body_bytes
    (pyDictGet opts "cassette_library_dir") disk
  let cassette := if pyDictMem opts "record" then
      { cassette with record_mode := asStr ((pyDictGet opts "record").getD .pynone) }
    else cassette
  let cassette := { cassette with match_options := asStrList match_requests_on }
  let re_record_interval :=
    if ((pyDictGet opts "re_record_interval").getD .pynone).pyTruthy then
      daysMicros (asNum ((pyDictGet opts "re_record_interval").getD .pynone))
    else timedeltaMax
  let cassette :=
    if re_record_interval < now - cassette.earliest_recorded_date then
      cassette.clear
    else cassette
  { a with cassette_name := some cassette_name, serialize := some serialize,
           options := opts, cassette := some cassette }

/-- Python `str.lower()` (character-wise lowercasing; URL prefixes are
ASCII). -/
def pyLower (s : String) : String := ⟨s.data.map Char.toLower⟩

/-- Python `str.startswith(pre)`. -/
def pyStartsWith (s pre : String) : Bool := pre.data.isPrefixOf s.data

/-- Embeds `BetamaxAdapter.find_adapter`: scan the preserved original handlers in
mapping order and return the first whose URL prefix the lowercased request
URL starts with (`None`, i.e. fall off the end, when nothing matches). -/
def BetamaxAdapter.find_adapter (a : BetamaxAdapter) (url : String) :
    Option Handler :=
  (a.old_adapters.find? (fun kv => pyStartsWith (pyLower url) kv.1)).map
    Prod.snd

/-- sq is the single-quote character, used by the Python `str()` rendering
of a list of strings. -/
def sq : String := String.singleton (Char.ofNat 39)

/-- Python `str()` of a list of strings, as interpolated into the
unhandled-request message. -/
def pyStrListRepr (l : List String) : String :=
  "[" ++ String.intercalate ", " (l.map (fun s => sq ++ s ++ sq)) ++ "]"

/-- Embeds `unhandled_request_message` of adapter.py: format
`UNHANDLED_REQUEST_EXCEPTION` with the request URL, the cassette's file
path, its record mode and its match options. -/
def unhandled_request_message (request : PyRequest) (cassette : Cassette) :
    String :=
  "A request was made that could not be handled.\n\nA request was made to "
  ++ request.url
  ++ " that could not be found in "
  ++ cassette.cassette_name
  ++ ".\n\nThe settings on the cassette are:\n\n    - record_mode: "
  ++ cassette.record_mode
  ++ "\n    - match_options "
  ++ pyStrListRepr cassette.match_options
  ++ ".\n"

/-- Embeds `BetamaxAdapter.send_and_record`: look up the real transport for the
request URL among the preserved handlers, perform the live call, hand the
response to the cassette to save, and return `self.cassette.interactions[-1]`
together with the updated cassette.  The cassette is passed explicitly
because `send` has already established that one is loaded.  A missing
handler (`find_adapter` fell off the end) or a betamax handler in
`old_adapters` (which would re-enter interception) cannot occur in normal
use; they surface as the Python runtime errors they would raise. -/
def BetamaxAdapter.send_and_record (a : BetamaxAdapter) (c : Cassette)
    (request : PyRequest) (now : Int) :
    Except SendError (Interaction × Cassette) :=
  match a.find_adapter request.url with
  | some (Handler.real ad) =>
      let response := ad.send request
      let c' := c.save_interaction response request now
      match c'.interactions.getLast? with
      | some i => .ok (i, c')
      | none => .error .pyIndexError
  | _ => .error .pyAttributeError

/-- Embeds `BetamaxAdapter.send`, the per-call decision protocol.  Fail when no
cassette is loaded; otherwise look for a recorded match (only when the
cassette has interactions); on miss, record live when the record mode
permits it; the interaction that answers the call is synthesized into a
response whose `connection` back-references this adapter; if no
interaction could be obtained, raise the descriptive unhandled-request
error. -/
def BetamaxAdapter.send (a : BetamaxAdapter) (request : PyRequest)
    (now : Int) : Except SendError (PyResponse × BetamaxAdapter) :=
  match a.cassette with
  | none => .error (.betamaxError ⟨"No cassette was specified or found."⟩)
  | some c =>
    let found :=
      if c.interactions.isEmpty then none else c.find_match request
    match found with
    | some i =>
        .ok ({ i.as_response c.placeholders with connection := some a.ref }, a)
    | none =>
      if c.is_recording then
        match a.send_and_record c request now with
        | .ok (i, c') =>
            .ok ({ i.as_response c'.placeholders with connection := some a.ref },
                 { a with cassette := some c' })
        | .error e => .error e
      else
        .error (.betamaxError ⟨unhandled_request_message request c⟩)

/- ### configure.py -/

/-- Embeds `Configuration.__setattr__` for `preserve_exact_body_bytes`: the
assigned value is ignored and the process-wide default option is set to
`True`. -/
def Configuration.set_preserve_exact_body_bytes (g : Globals)
    (_value : OptVal) : Globals :=
  let table :=
    pyDictSet g.default_cassette_options "preserve_exact_body_bytes" (.bool true)
  { g with default_cassette_options := table }

/-- The `default_cassette_options` property setter: rebind the
process-wide table. -/
def Configuration.set_default_cassette_options (g : Globals)
    (value : List (String × OptVal)) : Globals :=
  { g with default_cassette_options := value }

/-- The `cassette_library_dir` property setter: rebind the process-wide
library directory. -/
def Configuration.set_cassette_library_dir (g : Globals) (value : String) :
    Globals :=
  { g with CASSETTE_LIBRARY_DIR := value }

/-- Embeds `Configuration.define_cassette_placeholder`: append a
placeholder/replace dict to the `placeholders` list inside the
process-wide table (Python mutates that list in place; a missing or
non-list entry would raise, which does not occur with the shipped
defaults). -/
def Configuration.define_cassette_placeholder (g : Globals)
    (placeholder replace : String) : Globals :=
  let table :=
    match pyDictGet g.default_cassette_options "placeholders" with
    | some (.dicts l) =>
        pyDictSet g.default_cassette_options "placeholders"
          (.dicts (l ++ [[("placeholder", placeholder), ("replace", replace)]]))
    | _ => g.default_cassette_options
  { g with default_cassette_options := table }

/- ### recorder.py -/

/-- The part of a `requests.Session` betamax touches: the mapping from URL
prefixes to mounted transport handlers. -/
structure PySession where
  adapters : List (String × Handler)

/-- Modelled from the spec: `requests.Session.mount` (the host transport
boundary of §6, not part of this repository).  Mounting binds a handler to
a URL prefix, replacing any existing binding for that prefix.  (requests
additionally keeps the mapping ordered by descending prefix length; only
the resulting bindings matter to the claims below.) -/
def PySession.mount (s : PySession) (pfx : String) (h : Handler) :
    PySession :=
  { adapters := pyDictSet s.adapters pfx h }

/-- The `Betamax` session controller of recorder.py. -/
structure Betamax where
  session : PySession
  http_adapters : List (String × Handler)
  betamax_adapter : BetamaxAdapter

/-- Embeds `Betamax.__init__`: copy the session's original adapters, build the
interception adapter over them, and merge the supplied default cassette
options into the process-wide table (a global mutation); a truthy
`cassette_library_dir` likewise overwrites the process-wide directory.
`adapterRef` is the Python identity of the freshly created interception
adapter. -/
def Betamax.init (g : Globals) (session : PySession) (adapterRef : Nat)
    (cassette_library_dir : Option String)
    (default_cassette_options : List (String × OptVal)) :
    Globals × Betamax :=
  let http_adapters := session.adapters
  let betamax_adapter : BetamaxAdapter :=
    { ref := adapterRef, old_adapters := http_adapters }
  let table := pyDictUpdate g.default_cassette_options default_cassette_options
  let g := { g with default_cassette_options := table }
  let g := match cassette_library_dir with
    | some d => if d.isEmpty then g else { g with CASSETTE_LIBRARY_DIR := d }
    | none => g
  (g, { session := session, http_adapters := http_adapters,
        betamax_adapter := betamax_adapter })

/-- Embeds `Betamax.start`: mount the interception adapter over every URL prefix
the session originally had. -/
def Betamax.start (b : Betamax) : Betamax :=
  let session := b.http_adapters.foldl
    (fun s kv => s.mount kv.1 (Handler.betamax b.betamax_adapter.ref))
    b.session
  { b with session := session }

/-- Embeds `Betamax.stop`: eject the cassette, close the interception adapter,
and mount every original adapter back on its prefix. -/
def Betamax.stop (b : Betamax) : Betamax :=
  let session := b.http_adapters.foldl (fun s kv => s.mount kv.1 kv.2) b.session
  { b with betamax_adapter := b.betamax_adapter.eject_cassette.close,
           session := session }

/- ### Spec-side characterizations used to state the claims -/

/-- The staleness condition of the claim: a `re_record_interval` option
with a truthy value is configured, and the elapsed time since the earliest
recording strictly exceeds that many days. -/
def reRecordStale (rri : Option OptVal) (earliest now : Int) : Bool :=
  match rri with
  | some v => v.pyTruthy && decide (daysMicros (asNum v) < now - earliest)
  | none => false

/-- The keys of a handler mapping are ordered by non-increasing length
(the invariant `requests.Session.mount` maintains, so that the first
matching prefix is a most-specific one). -/
def descLenKeys : List String → Bool
  | [] => true
  | [_] => true
  | x :: y :: rest => decide (y.length ≤ x.length) && descLenKeys (y :: rest)

/- ### Concrete fixtures used by the witnesses -/

/-- A replay-only cassette with no interactions, used as the concrete
input of the C1 witness. -/
def emptyNoneCassette : Cassette :=
  { cassette_name := "tests/cassettes/example",
    serialize_format := "json",
    placeholders := [],
    record_mode := "none",
    match_options := ["method", "uri"],
    preserve_exact_body_bytes := false,
    cassette_library_dir := "vcr/cassettes",
    interactions := [],
    initially_empty := false }

/-- A concrete real transport used by the witnesses. -/
def stubTransport (ref : Nat) : RealAdapter :=
  { ref := ref,
    send := fun _ =>
      { status_code := 200, headers := [("Content-Type", "text/plain")],
        content := "live body", connection := none } }

/-- The preserved-handler mapping used by the C3 witness, keyed by
prefixes of non-increasing length. -/
def c3Adapters : List (String × Handler) :=
  [("http://example.test/", Handler.real (stubTransport 11)),
   ("https://", Handler.real (stubTransport 12)),
   ("http://", Handler.real (stubTransport 13))]

/-- The validated options object of the C4 witness: a one-day re-record
interval (the value `[("re_record_interval", num 1)]` survives validation
unchanged, so this is the Options that `Options.init` constructs for it). -/
def c4Options : Options :=
  { data := [("re_record_interval", OptVal.num 1)],
    defaults := Options.instance_defaults initGlobals }

/-- An interaction recorded at the epoch, used by the C4 witness. -/
def wInteraction : Interaction :=
  { request := { method := "GET", url := "http://example.test/",
                 headers := [], body := "" },
    response := { status_code := 200, headers := [], content := "ok",
                  connection := none },
    recorded_at := 0 }

/-- The interaction `save_interaction` appends for a live response/request
pair (redacted for storage, timestamped now). -/
def savedInteraction (c : Cassette) (request : PyRequest) (live : PyResponse)
    (now : Int) : Interaction :=
  { request := redactRequest c.placeholders request,
    response := redactResponse c.placeholders live,
    recorded_at := now }

/-- Set the connection back-reference of a response. -/
def setConn (r : PyResponse) (conn : Option Nat) : PyResponse :=
  { r with connection := conn }

/-- The freshly created (empty, record-once) cassette of the C7 witness. -/
def c7Cassette : Cassette :=
  { cassette_name := "tests/cassettes/fresh",
    serialize_format := "json",
    placeholders := [],
    record_mode := "once",
    match_options := ["method", "uri"],
    preserve_exact_body_bytes := false,
    cassette_library_dir := "vcr/cassettes",
    interactions := [],
    initially_empty := true }

/-- The interception adapter of the C7 witness. -/
def c7Adapter : BetamaxAdapter :=
  { ref := 2, cassette := some c7Cassette,
    old_adapters := [("http://", Handler.real (stubTransport 21))] }

/-- The live request of the C7 witness. -/
def c7Request : PyRequest :=
  { method := "GET", url := "http://example.test/", headers := [], body := "" }

/-- The client session of the C8 witness: two originally mounted real
transports. -/
def c8Session : PySession :=
  { adapters := [("https://", Handler.real (stubTransport 31)),
                 ("http://", Handler.real (stubTransport 32))] }

/- ### Helper lemmas about the dict embedding -/

theorem pyDictGet_set_self {α : Type} (d : List (String × α)) (k : String)
    (v : α) : pyDictGet (pyDictSet d k v) k = some v := by
  induction d with
  | nil => simp [pyDictGet, pyDictSet]
  | cons hd tl ih =>
      by_cases h : hd.1 = k
      · simp [pyDictGet, pyDictSet, h, List.find?]
      · simpa [pyDictGet, pyDictSet, h, List.find?] using ih

theorem pyDictGet_set_ne {α : Type} (d : List (String × α)) (k k' : String)
    (v : α) (h : k' ≠ k) :
    pyDictGet (pyDictSet d k v) k' = pyDictGet d k' := by
  induction d with
  | nil => simp [pyDictGet, pyDictSet, List.find?, Ne.symm h]
  | cons hd tl ih =>
      obtain ⟨k₀, v₀⟩ := hd
      by_cases hh : k₀ = k
      · subst hh
        simp [pyDictGet, pyDictSet, List.find?, Ne.symm h]
      · by_cases hk' : k₀ = k'
        · subst hk'
          simp [pyDictGet, pyDictSet, hh, List.find?]
        · simpa [pyDictGet, pyDictSet, hh, List.find?, hk'] using ih

theorem keys_pyDictSet {α : Type} (d : List (String × α)) (k : String)
    (v : α) :
    (pyDictSet d k v).map Prod.fst
      = if k ∈ d.map Prod.fst then d.map Prod.fst else d.map Prod.fst ++ [k] := by
  induction d with
  | nil => simp [pyDictSet]
  | cons hd tl ih =>
      by_cases h : hd.1 = k
      · simp [pyDictSet, h]
      · simp only [pyDictSet, h, if_false, List.map_cons, ih]
        by_cases hm : k ∈ tl.map Prod.fst
        · simp [hm, Ne.symm h]
        · simp [hm, Ne.symm h]

/-- Folding dict assignment over a list of pairs whose keys avoid `k` does
not change the binding of `k`. -/
theorem pyDictGet_foldl_set_not_mem {α : Type} (l : List (String × α))
    (s : List (String × α)) (k : String) (h : k ∉ l.map Prod.fst) :
    pyDictGet (l.foldl (fun acc kv => pyDictSet acc kv.1 kv.2) s) k
      = pyDictGet s k := by
  induction l generalizing s with
  | nil => rfl
  | cons hd tl ih =>
      simp only [List.map_cons, List.mem_cons, not_or] at h
      simp only [List.foldl_cons]
      rw [ih _ h.2, pyDictGet_set_ne _ _ _ _ h.1]

/-- Folding dict assignment over a list of pairs with distinct keys leaves
each pair's binding at its value. -/
theorem pyDictGet_foldl_set_mem {α : Type} (l : List (String × α))
    (s : List (String × α)) (k : String) (v : α)
    (hn : (l.map Prod.fst).Nodup) (hm : (k, v) ∈ l) :
    pyDictGet (l.foldl (fun acc kv => pyDictSet acc kv.1 kv.2) s) k
      = some v := by
  induction l generalizing s with
  | nil => cases hm
  | cons hd tl ih =>
      simp only [List.map_cons, List.nodup_cons] at hn
      rcases List.mem_cons.mp hm with h | h
      · subst h
        simp only [List.foldl_cons]
        rw [pyDictGet_foldl_set_not_mem _ _ _ hn.1, pyDictGet_set_self]
      · simp only [List.foldl_cons]
        exact ih _ hn.2 h

theorem pyDictGet_update_mem {α : Type} (d upd : List (String × α))
    (k : String) (v : α) (hn : (upd.map Prod.fst).Nodup)
    (hm : (k, v) ∈ upd) : pyDictGet (pyDictUpdate d upd) k = some v :=
  pyDictGet_foldl_set_mem upd d k v hn hm

theorem pyDictGet_update_not_mem {α : Type} (d upd : List (String × α))
    (k : String) (h : k ∉ upd.map Prod.fst) :
    pyDictGet (pyDictUpdate d upd) k = pyDictGet d k :=
  pyDictGet_foldl_set_not_mem upd d k h

/-- In a dict (unique keys), two entries with the same key are the same
entry. -/
theorem nodup_keys_val_eq {α : Type} {l : List (String × α)}
    (hn : (l.map Prod.fst).Nodup) {kv kv' : String × α}
    (h1 : kv ∈ l) (h2 : kv' ∈ l) (he : kv'.1 = kv.1) : kv' = kv := by
  induction l with
  | nil => cases h1
  | cons hd tl ih =>
      simp only [List.map_cons, List.nodup_cons] at hn
      rcases List.mem_cons.mp h1 with rfl | h1' <;>
        rcases List.mem_cons.mp h2 with rfl | h2'
      · rfl
      · exact absurd (he ▸ List.mem_map_of_mem Prod.fst h2') hn.1
      · exact absurd (he ▸ List.mem_map_of_mem Prod.fst h1') hn.1
      · exact ih hn.2 h1' h2'

/-- A head key in a non-increasing-length key list bounds the length of
every later key. -/
theorem descLenKeys_head (x : String) (l : List String)
    (h : descLenKeys (x :: l) = true) :
    descLenKeys l = true ∧ ∀ y ∈ l, y.length ≤ x.length := by
  induction l generalizing x with
  | nil => exact ⟨rfl, by simp⟩
  | cons z rest ih =>
      simp only [descLenKeys, Bool.and_eq_true, decide_eq_true_eq] at h
      obtain ⟨hzx, hrest⟩ := h
      have hrest' : descLenKeys (z :: rest) = true := hrest
      refine ⟨hrest', ?_⟩
      intro y hy
      rcases List.mem_cons.mp hy with rfl | hy'
      · exact hzx
      · exact le_trans ((ih z hrest').2 y hy') hzx

/-- Folding `PySession.mount` is dict assignment on the adapters mapping. -/
theorem adapters_foldl_mount (l : List (String × Handler)) (s : PySession) :
    (l.foldl (fun s kv => s.mount kv.1 kv.2) s).adapters
      = l.foldl (fun acc kv => pyDictSet acc kv.1 kv.2) s.adapters := by
  induction l generalizing s with
  | nil => rfl
  | cons hd tl ih =>
      simp only [List.foldl_cons]
      rw [ih]
      rfl

/-- One validate-loop iteration whose entry's validator does not raise
keeps the dict when the snapshot entry is valid and deletes its key
otherwise. -/
theorem validateStep_eq (d : List (String × OptVal)) (kv : String × OptVal)
    (hok : entryRaises kv = false) :
    Options.validateStep d kv
      = .ok (if validEntry kv then d else pyDictDel d kv.1) := by
  unfold Options.validateStep validEntry
  unfold entryRaises at hok
  cases h : Options.valid_options_check kv.1 kv.2 with
  | none => simp
  | some r =>
      rw [h] at hok
      cases r with
      | ok b => cases b <;> simp
      | error e => simp at hok

/-- The validate loop over a snapshot `l` none of whose validators raise,
run against a dict `d` whose entries agree with `l` on common keys,
succeeds and filters `d` down to the entries that either have a key
outside `l` or satisfy the survival predicate. -/
theorem validateLoop_filter (l : List (String × OptVal)) :
    ∀ d : List (String × OptVal), (l.map Prod.fst).Nodup →
    (∀ kv ∈ l, entryRaises kv = false) →
    (∀ kv ∈ l, ∀ kv' ∈ d, kv'.1 = kv.1 → kv'.2 = kv.2) →
    Options.validateLoop l d
      = .ok (d.filter (fun kv => if kv.1 ∈ l.map Prod.fst then validEntry kv else true)) := by
  induction l with
  | nil =>
      intro d _ _ _
      simp [Options.validateLoop]
  | cons hd tl ih =>
      intro d hn hraise hagree
      simp only [List.map_cons, List.nodup_cons] at hn
      rw [show Options.validateLoop (hd :: tl) d
          = (match Options.validateStep d hd with
             | .ok d' => Options.validateLoop tl d'
             | .error e => .error e) from rfl]
      rw [validateStep_eq d hd (hraise hd (List.mem_cons_self ..))]
      by_cases hv : validEntry hd = true
      · rw [if_pos hv]
        show Options.validateLoop tl d = _
        rw [ih d hn.2 (fun kv hkv => hraise kv (List.mem_cons_of_mem _ hkv))
          (fun kv hkv kv' hkv' he => hagree kv (List.mem_cons_of_mem _ hkv) kv' hkv' he)]
        congr 1
        apply List.filter_congr
        intro kv hkv
        by_cases hk : kv.1 = hd.1
        · have : kv.2 = hd.2 := hagree hd (List.mem_cons_self ..) kv hkv hk
          have hkv_eq : kv = hd := Prod.ext hk this
          have hnot : kv.1 ∉ tl.map Prod.fst := hk ▸ hn.1
          simp [hnot, hk, hkv_eq, hv]
        · have hbeq : (kv.1 == hd.1) = false := by simp [hk]
          simp [List.map_cons, List.mem_cons, hk, hbeq]
      · rw [if_neg hv]
        show Options.validateLoop tl (pyDictDel d hd.1) = _
        have hagree' : ∀ kv ∈ tl, ∀ kv' ∈ pyDictDel d hd.1, kv'.1 = kv.1 → kv'.2 = kv.2 := by
          intro kv hkv kv' hkv' he
          exact hagree kv (List.mem_cons_of_mem _ hkv) kv' (List.mem_of_mem_filter hkv') he
        rw [ih (pyDictDel d hd.1) hn.2
          (fun kv hkv => hraise kv (List.mem_cons_of_mem _ hkv)) hagree']
        congr 1
        unfold pyDictDel
        rw [List.filter_filter]
        apply List.filter_congr
        intro kv hkv
        by_cases hk : kv.1 = hd.1
        · have : kv.2 = hd.2 := hagree hd (List.mem_cons_self ..) kv hkv hk
          have hkv_eq : kv = hd := Prod.ext hk this
          simp [hk, hkv_eq, Bool.eq_false_iff.mpr, hv]
        · have hbeq : (kv.1 == hd.1) = false := by simp [hk]
          simp [hk, List.map_cons, List.mem_cons, hbeq]

/- ### The claims -/

/-- C2: for every live request, if no cassette is currently loaded in the
interception adapter (its cassette field is unset, which is also the state
every eject leaves behind), the send operation fails immediately with a
`BetamaxError`.  The adapter — including its preserved original handlers
and the cassette-independent machinery — is universally quantified, so the
failure happens regardless of any matcher or real transport: no lookup or
live call can influence it. -/
theorem C2_send_without_cassette_fails (a : BetamaxAdapter)
    (request : PyRequest) (now : Int) (h : a.cassette = none) :
    a.send request now
      = .error (.betamaxError ⟨"No cassette was specified or found."⟩)
    ∧ ∀ a' : BetamaxAdapter, a'.eject_cassette.cassette = none := by
  refine ⟨?_, fun a' => rfl⟩
  unfold BetamaxAdapter.send
  rw [h]

theorem C2_send_without_cassette_fails_witness :
    ({ ref := 0 } : BetamaxAdapter).cassette = none
    ∧ (BetamaxAdapter.send { ref := 0 }
          { method := "GET", url := "http://example.test/", headers := [],
            body := "" } 0
        = .error (.betamaxError ⟨"No cassette was specified or found."⟩)
      ∧ ∀ a' : BetamaxAdapter, a'.eject_cassette.cassette = none) :=
  ⟨rfl, C2_send_without_cassette_fails _ _ 0 rfl⟩

/-- C6: constructing Options with `record: "bogus"` raises no exception
(the constructor succeeds — `validate_record` is a plain list-membership
test, which never raises), leaves `record` absent from the validated
mapping's explicit entries, and makes lookup of `record` return the
default mode `once`. -/
theorem C6_bogus_record_falls_back_to_once :
    (Options.init initGlobals [("record", .str "bogus")]).map
        (fun o => (o.contains "record", Options.getitem o "record"))
      = .ok (false, .str "once") := by
  rfl

/-- C10: for every value v, including False, assigning v to the
`preserve_exact_body_bytes` attribute of a Configuration sets the
process-wide default option to True, ignoring v — the outcome is
independent of the assigned value, so this setter can never store
False. -/
theorem C10_preserve_setter_forces_true (g : Globals) (v : OptVal) :
    pyDictGet
        (Configuration.set_preserve_exact_body_bytes g v).default_cassette_options
        "preserve_exact_body_bytes" = some (.bool true)
    ∧ ∀ w : OptVal, Configuration.set_preserve_exact_body_bytes g v
        = Configuration.set_preserve_exact_body_bytes g w := by
  exact ⟨pyDictGet_set_self .., fun w => rfl⟩

/-- C1: with a cassette loaded, when no recorded interaction matches the
live request and the cassette's record mode does not permit recording
(`is_recording` is false), send raises a `BetamaxError` — never a silent
no-op — whose message names the unmatched request's URL, the cassette's
file path, its record mode, and its active matcher list. -/
theorem C1_unmatched_request_raises_descriptive_error (a : BetamaxAdapter)
    (c : Cassette) (request : PyRequest) (now : Int)
    (hc : a.cassette = some c)
    (hmiss : c.find_match request = none)
    (hrec : c.is_recording = false) :
    a.send request now
      = .error (.betamaxError ⟨unhandled_request_message request c⟩)
    ∧ ∃ s₁ s₂ s₃ s₄ s₅ : String,
        unhandled_request_message request c
          = s₁ ++ request.url ++ s₂ ++ c.cassette_name ++ s₃ ++ c.record_mode
            ++ s₄ ++ pyStrListRepr c.match_options ++ s₅ := by
  constructor
  · unfold BetamaxAdapter.send
    rw [hc]
    by_cases he : c.interactions.isEmpty <;> simp [he, hmiss, hrec]
  · exact ⟨_, _, _, _, _, rfl⟩

theorem C1_unmatched_request_raises_descriptive_error_witness :
    (({ ref := 3, cassette := some emptyNoneCassette } : BetamaxAdapter).cassette
        = some emptyNoneCassette
      ∧ emptyNoneCassette.find_match
          { method := "GET", url := "http://example.test/", headers := [],
            body := "" } = none
      ∧ emptyNoneCassette.is_recording = false)
    ∧ (BetamaxAdapter.send { ref := 3, cassette := some emptyNoneCassette }
          { method := "GET", url := "http://example.test/", headers := [],
            body := "" } 0
        = .error (.betamaxError
            ⟨unhandled_request_message
              { method := "GET", url := "http://example.test/", headers := [],
                body := "" } emptyNoneCassette⟩)
      ∧ ∃ s₁ s₂ s₃ s₄ s₅ : String,
          unhandled_request_message
              { method := "GET", url := "http://example.test/", headers := [],
                body := "" } emptyNoneCassette
            = s₁ ++ "http://example.test/" ++ s₂
              ++ emptyNoneCassette.cassette_name ++ s₃
              ++ emptyNoneCassette.record_mode ++ s₄
              ++ pyStrListRepr emptyNoneCassette.match_options ++ s₅) :=
  ⟨⟨rfl, by decide, rfl⟩,
   C1_unmatched_request_raises_descriptive_error _ _ _ 0 rfl (by decide) rfl⟩

/-- C5 counterexample: the claim says validation "raises no exception for
any invalid input", but under Python 3 the validator of
`re_record_interval` evaluates `"bogus" > 0`, which raises `TypeError`, so
the constructor raises instead of dropping the key. -/
theorem C5_string_interval_raises_TypeError :
    Options.init initGlobals [("re_record_interval", OptVal.str "bogus")]
      = .error PyExc.typeError := by
  rfl

/-- C5 (amended): for every raw input mapping with unique keys none of
whose values makes its per-key validator raise, `Options.validate()`
raises no exception (the constructor succeeds) and removes exactly the
keys outside the fixed registry and the recognized keys whose values fail
their predicate; lookup on the constructed Options returns the explicit
surviving value if present, else the value from the defaults table. -/
theorem C5_validate_filters_and_lookup_falls_back (g : Globals)
    (raw : List (String × OptVal)) (hn : (raw.map Prod.fst).Nodup)
    (hraise : ∀ kv ∈ raw, entryRaises kv = false) :
    Options.init g raw
        = .ok { data := raw.filter validEntry,
                defaults := Options.instance_defaults g }
    ∧ ∀ key : String,
        Options.getitem
            { data := raw.filter validEntry,
              defaults := Options.instance_defaults g } key
          = match pyDictGet (raw.filter validEntry) key with
            | some v => v
            | none =>
                (pyDictGet (Options.instance_defaults g) key).getD .pynone := by
  have hdata : Options.validateData raw = .ok (raw.filter validEntry) := by
    unfold Options.validateData
    rw [validateLoop_filter raw raw hn hraise
      (fun kv hkv kv' hkv' he => congrArg Prod.snd (nodup_keys_val_eq hn hkv hkv' he))]
    congr 1
    apply List.filter_congr
    intro kv hkv
    have : kv.1 ∈ raw.map Prod.fst := List.mem_map_of_mem Prod.fst hkv
    simp [this]
  constructor
  · unfold Options.init
    rw [hdata]
  · intro key
    rfl

theorem C5_validate_filters_and_lookup_falls_back_witness :
    (([("record", OptVal.str "all"), ("bogus", OptVal.num 1),
       ("re_record_interval", OptVal.num 0)].map Prod.fst).Nodup
      ∧ ∀ kv ∈ [("record", OptVal.str "all"), ("bogus", OptVal.num 1),
          ("re_record_interval", OptVal.num 0)], entryRaises kv = false)
    ∧ (Options.init initGlobals
          [("record", OptVal.str "all"), ("bogus", OptVal.num 1),
           ("re_record_interval", OptVal.num 0)]
        = .ok { data := [("record", OptVal.str "all"), ("bogus", OptVal.num 1),
                  ("re_record_interval", OptVal.num 0)].filter validEntry,
                defaults := Options.instance_defaults initGlobals }
      ∧ ∀ key : String,
          Options.getitem
              { data := [("record", OptVal.str "all"), ("bogus", OptVal.num 1),
                  ("re_record_interval", OptVal.num 0)].filter validEntry,
                defaults := Options.instance_defaults initGlobals } key
            = match pyDictGet ([("record", OptVal.str "all"),
                ("bogus", OptVal.num 1),
                ("re_record_interval", OptVal.num 0)].filter validEntry) key with
              | some v => v
              | none =>
                  (pyDictGet (Options.instance_defaults initGlobals) key).getD
                    .pynone) :=
  ⟨⟨by decide, by decide⟩,
   C5_validate_filters_and_lookup_falls_back initGlobals _ (by decide)
     (by decide)⟩

/-- In a handler list whose keys have non-increasing lengths, the first
entry whose prefix the URL starts with is also a longest such prefix. -/
theorem find_first_is_longest (url : String) (l : List (String × Handler))
    (hs : descLenKeys (l.map Prod.fst) = true)
    (kv : String × Handler) (hkv : kv ∈ l)
    (hst : pyStartsWith (pyLower url) kv.1 = true) :
    ∃ kv' : String × Handler, kv' ∈ l
      ∧ pyStartsWith (pyLower url) kv'.1 = true
      ∧ (l.find? (fun kv => pyStartsWith (pyLower url) kv.1)).map Prod.snd
          = some kv'.2
      ∧ ∀ p ∈ l, pyStartsWith (pyLower url) p.1 = true
          → p.1.length ≤ kv'.1.length := by
  induction l with
  | nil => cases hkv
  | cons hd tl ih =>
      by_cases hh : pyStartsWith (pyLower url) hd.1 = true
      · refine ⟨hd, List.mem_cons_self .., hh, ?_, ?_⟩
        · simp [List.find?_cons_of_pos, hh]
        · intro p hp hps
          rcases List.mem_cons.mp hp with rfl | hp'
          · exact le_refl _
          · exact (descLenKeys_head _ _ hs).2 p.1 (List.mem_map_of_mem Prod.fst hp')
      · have hs' : descLenKeys (tl.map Prod.fst) = true :=
          (descLenKeys_head _ _ hs).1
        have hkv' : kv ∈ tl := by
          rcases List.mem_cons.mp hkv with rfl | h
          · exact absurd hst hh
          · exact h
        obtain ⟨kv', h1, h2, h3, h4⟩ := ih hs' hkv'
        refine ⟨kv', List.mem_cons_of_mem _ h1, h2, ?_, ?_⟩
        · rw [List.find?_cons_of_neg _ (by simp [hh])]
          exact h3
        · intro p hp hps
          rcases List.mem_cons.mp hp with rfl | hp'
          · exact absurd hps hh
          · exact h4 p hp' hps

/-- C3: on the recording path, `find_adapter` selects the real transport
among the preserved original handlers by a longest (most-specific) URL
prefix that the lowercased request URL starts with.  The hypothesis
`descLenKeys` is the ordering invariant of the preserved handler mapping:
`requests.Session.mount` keeps it sorted by non-increasing prefix length,
and `Betamax.__init__` copies it as-is, so the first matching prefix the
scan in `find_adapter` returns is a longest matching one. -/
theorem C3_find_adapter_most_specific (a : BetamaxAdapter) (url : String)
    (hs : descLenKeys (a.old_adapters.map Prod.fst) = true)
    (kv : String × Handler) (hkv : kv ∈ a.old_adapters)
    (hst : pyStartsWith (pyLower url) kv.1 = true) :
    ∃ kv' : String × Handler, kv' ∈ a.old_adapters
      ∧ pyStartsWith (pyLower url) kv'.1 = true
      ∧ a.find_adapter url = some kv'.2
      ∧ ∀ p ∈ a.old_adapters, pyStartsWith (pyLower url) p.1 = true
          → p.1.length ≤ kv'.1.length :=
  find_first_is_longest url a.old_adapters hs kv hkv hst

theorem C3_find_adapter_most_specific_witness :
    (descLenKeys (c3Adapters.map Prod.fst) = true
      ∧ (pyStartsWith (pyLower "http://example.test/get") "http://" = true))
    ∧ ∃ kv' : String × Handler,
        kv' ∈ ({ ref := 5, old_adapters := c3Adapters } : BetamaxAdapter).old_adapters
        ∧ pyStartsWith (pyLower "http://example.test/get") kv'.1 = true
        ∧ BetamaxAdapter.find_adapter { ref := 5, old_adapters := c3Adapters }
            "http://example.test/get" = some kv'.2
        ∧ ∀ p ∈ ({ ref := 5, old_adapters := c3Adapters } : BetamaxAdapter).old_adapters,
            pyStartsWith (pyLower "http://example.test/get") p.1 = true
            → p.1.length ≤ kv'.1.length :=
  ⟨⟨by decide, by decide⟩,
   C3_find_adapter_most_specific { ref := 5, old_adapters := c3Adapters }
     "http://example.test/get" (by decide)
     ("http://", Handler.real (stubTransport 13))
     (by simp [c3Adapters]) (by decide)⟩

/-- C4: at cassette load time, the interaction collection of the freshly
loaded cassette is cleared exactly when a `re_record_interval` option with
a truthy value is configured in the merged options and the elapsed
wall-clock time since the cassette's earliest recorded date strictly
exceeds that many days; with no (or a falsy) interval configured it is
never cleared.  The hypothesis bounds the elapsed time by
`timedelta.max`, which holds for every pair of representable datetimes. -/
theorem C4_re_record_interval_clears_iff (a : BetamaxAdapter) (g : Globals)
    (name serialize : String) (options : Options) (disk : List Interaction)
    (now : Int) (h : now - earliestOf disk ≤ timedeltaMax) :
    (a.load_cassette g name serialize options disk now).cassette.map
        Cassette.interactions
      = some (if reRecordStale
                (pyDictGet (pyDictUpdate a.options options.data)
                  "re_record_interval") (earliestOf disk) now
              then [] else disk) := by
  unfold BetamaxAdapter.load_cassette
  dsimp only
  simp only [Option.map_some', apply_ite Cassette.interactions, Cassette.clear,
    Cassette.earliest_recorded_date, Cassette.construct, reRecordStale,
    ite_self]
  cases hr : pyDictGet (pyDictUpdate a.options options.data)
      "re_record_interval" with
  | none =>
      simp only [Option.getD_none, OptVal.pyTruthy, Bool.false_eq_true,
        if_false]
      rw [if_neg (by omega)]
  | some v =>
      simp only [Option.getD_some]
      by_cases hv : v.pyTruthy = true
      · simp [hv]
      · have hv' : v.pyTruthy = false := by simpa using hv
        simp only [hv', Bool.false_eq_true, if_false, Bool.false_and]
        rw [if_neg (by omega)]

theorem C4_re_record_interval_clears_iff_witness :
    ((172800000001 : Int) - earliestOf [wInteraction] ≤ timedeltaMax)
    ∧ ((BetamaxAdapter.load_cassette { ref := 1 } initGlobals "example" "json"
          c4Options [wInteraction] 172800000001).cassette.map
            Cassette.interactions
        = some (if reRecordStale
                  (pyDictGet
                    (pyDictUpdate ({ ref := 1 } : BetamaxAdapter).options
                      c4Options.data)
                    "re_record_interval")
                  (earliestOf [wInteraction]) 172800000001
                then [] else [wInteraction])) :=
  ⟨by decide,
   C4_re_record_interval_clears_iff { ref := 1 } initGlobals "example" "json"
     c4Options [wInteraction] 172800000001 (by decide)⟩

/-- C7: on a miss with recording permitted, the interaction used to answer
the in-flight call is the most-recently-appended element of the cassette's
interaction list — exactly the one just saved from the live response — and
the response synthesized from it carries a back-reference to the adapter
(its Python identity) in its connection field. -/
theorem C7_miss_replays_last_saved_interaction (a : BetamaxAdapter)
    (c : Cassette) (request : PyRequest) (now : Int) (ad : RealAdapter)
    (hc : a.cassette = some c)
    (hmiss : c.find_match request = none)
    (hrec : c.is_recording = true)
    (hfind : a.find_adapter request.url = some (Handler.real ad)) :
    (c.save_interaction (ad.send request) request now).interactions
        = c.interactions ++ [savedInteraction c request (ad.send request) now]
    ∧ (c.save_interaction (ad.send request) request now).interactions.getLast?
        = some (savedInteraction c request (ad.send request) now)
    ∧ a.send request now
        = .ok
          (setConn ((savedInteraction c request (ad.send request) now).as_response c.placeholders) (some a.ref),
           { a with cassette := some (c.save_interaction (ad.send request) request now) }) := by
  refine ⟨rfl, ?_, ?_⟩
  · show (c.interactions ++ [_]).getLast? = _
    rw [List.getLast?_concat]
    rfl
  · unfold BetamaxAdapter.send
    rw [hc]
    by_cases he : c.interactions.isEmpty <;>
      simp [he, hmiss, hrec, BetamaxAdapter.send_and_record, hfind,
        Cassette.save_interaction, List.getLast?_concat, savedInteraction,
        setConn]

theorem C7_miss_replays_last_saved_interaction_witness :
    (c7Adapter.cassette = some c7Cassette
      ∧ c7Cassette.find_match c7Request = none
      ∧ c7Cassette.is_recording = true
      ∧ c7Adapter.find_adapter c7Request.url
          = some (Handler.real (stubTransport 21)))
    ∧ ((c7Cassette.save_interaction ((stubTransport 21).send c7Request) c7Request 5).interactions
          = c7Cassette.interactions
            ++ [savedInteraction c7Cassette c7Request ((stubTransport 21).send c7Request) 5]
      ∧ (c7Cassette.save_interaction ((stubTransport 21).send c7Request) c7Request 5).interactions.getLast?
          = some (savedInteraction c7Cassette c7Request ((stubTransport 21).send c7Request) 5)
      ∧ c7Adapter.send c7Request 5
          = .ok
            (setConn ((savedInteraction c7Cassette c7Request ((stubTransport 21).send c7Request) 5).as_response c7Cassette.placeholders) (some c7Adapter.ref),
             { c7Adapter with cassette := some (c7Cassette.save_interaction ((stubTransport 21).send c7Request) c7Request 5) })) :=
  ⟨⟨rfl, by decide, rfl, rfl⟩,
   C7_miss_replays_last_saved_interaction c7Adapter c7Cassette c7Request 5
     (stubTransport 21) rfl (by decide) rfl rfl⟩

/-- C8: after start() followed by stop(), every URL-prefix key that was
mounted on the client session before start() is mounted to its original
adapter again, the interception adapter's cassette has been ejected (set
to unloaded), and the adapter has been closed. -/
theorem C8_stop_restores_original_adapters (g : Globals) (session : PySession)
    (adapterRef : Nat) (clib : Option String) (dco : List (String × OptVal))
    (hn : (session.adapters.map Prod.fst).Nodup) :
    (∀ kv ∈ session.adapters,
      pyDictGet (Betamax.init g session adapterRef clib dco).2.start.stop.session.adapters kv.1
        = some kv.2)
    ∧ (Betamax.init g session adapterRef clib dco).2.start.stop.betamax_adapter.cassette = none
    ∧ (Betamax.init g session adapterRef clib dco).2.start.stop.betamax_adapter.closed = true := by
  refine ⟨fun kv hkv => ?_, rfl, rfl⟩
  rw [show (Betamax.init g session adapterRef clib dco).2.start.stop.session.adapters
      = session.adapters.foldl (fun acc kv => pyDictSet acc kv.1 kv.2)
          (Betamax.init g session adapterRef clib dco).2.start.session.adapters
    from adapters_foldl_mount session.adapters _]
  exact pyDictGet_foldl_set_mem _ _ _ _ hn hkv

theorem C8_stop_restores_original_adapters_witness :
    ((c8Session.adapters.map Prod.fst).Nodup)
    ∧ ((∀ kv ∈ c8Session.adapters,
          pyDictGet (Betamax.init initGlobals c8Session 40 none []).2.start.stop.session.adapters kv.1
            = some kv.2)
      ∧ (Betamax.init initGlobals c8Session 40 none []).2.start.stop.betamax_adapter.cassette = none
      ∧ (Betamax.init initGlobals c8Session 40 none []).2.start.stop.betamax_adapter.closed = true) :=
  ⟨by decide,
   C8_stop_restores_original_adapters initGlobals c8Session 40 none []
     (by decide)⟩

/-- A successful dict lookup exhibits a member entry. -/
theorem mem_of_pyDictGet {α : Type} {d : List (String × α)} {k : String}
    {v : α} (h : pyDictGet d k = some v) : (k, v) ∈ d := by
  unfold pyDictGet at h
  cases hf : d.find? (fun kv => kv.1 = k) with
  | none => simp [hf] at h
  | some kv₀ =>
      simp only [hf, Option.map_some', Option.some_inj] at h
      have hmem := List.mem_of_find?_eq_some hf
      have hpred := List.find?_some hf
      obtain ⟨k₀, v₀⟩ := kv₀
      simp only [decide_eq_true_eq] at hpred
      cases h
      cases hpred
      exact hmem

/-- C9: the default cassette options form one process-wide table edited in
place (threaded here as the `Globals` record): constructing a Betamax with
a `default_cassette_options` argument merges those entries into the table;
writing `preserve_exact_body_bytes` or defining a cassette placeholder
through a Configuration edits the same table; assigning
`default_cassette_options` rebinds it; and a later-created Options copies
the (translated) table into its instance defaults, so such writes are
observable by every later-created Configuration, Betamax and Options. -/
theorem C9_process_wide_default_table (g : Globals) (session : PySession)
    (adapterRef : Nat) (clib : Option String) (dco : List (String × OptVal))
    (v : OptVal) (p r : String) (raw : List (String × OptVal))
    (ph : List (List (String × String)))
    (hph : pyDictGet g.default_cassette_options "placeholders"
        = some (.dicts ph))
    (htr : ((translate_cassette_options
        (Configuration.set_preserve_exact_body_bytes g v).default_cassette_options).map
          Prod.fst).Nodup) :
    (Betamax.init g session adapterRef clib dco).1.default_cassette_options
        = pyDictUpdate g.default_cassette_options dco
    ∧ (Configuration.set_default_cassette_options g dco).default_cassette_options
        = dco
    ∧ pyDictGet
        (Configuration.define_cassette_placeholder g p r).default_cassette_options
        "placeholders"
        = some (.dicts (ph ++ [[("placeholder", p), ("replace", r)]]))
    ∧ (∀ o : Options, Options.init g raw = .ok o →
        o.defaults = pyDictUpdate Options.class_defaults
          (translate_cassette_options g.default_cassette_options))
    ∧ (Options.init (Configuration.set_preserve_exact_body_bytes g v) []).map
        (fun o => Options.getitem o "preserve_exact_body_bytes")
        = .ok (.bool true) := by
  refine ⟨?_, rfl, ?_, ?_, ?_⟩
  · unfold Betamax.init
    cases clib with
    | none => rfl
    | some d => by_cases hd : d.isEmpty <;> simp [hd]
  · unfold Configuration.define_cassette_placeholder
    rw [hph]
    exact pyDictGet_set_self ..
  · intro o ho
    unfold Options.init at ho
    cases hvd : Options.validateData raw with
    | ok d =>
        rw [hvd] at ho
        cases ho
        rfl
    | error e =>
        rw [hvd] at ho
        exact Except.noConfusion ho
  · have h1 : pyDictGet
        (Configuration.set_preserve_exact_body_bytes g v).default_cassette_options
        "preserve_exact_body_bytes" = some (OptVal.bool true) :=
      pyDictGet_set_self ..
    have h2 := mem_of_pyDictGet h1
    have h3 : (("preserve_exact_body_bytes", OptVal.bool true) : String × OptVal)
        ∈ translate_cassette_options
            (Configuration.set_preserve_exact_body_bytes g v).default_cassette_options := by
      have := List.mem_map_of_mem
        (fun kv : String × OptVal =>
          if kv.1 = "record_mode" then ("record", kv.2) else kv) h2
      simpa [translate_cassette_options] using this
    have h4 : pyDictGet
        (Options.instance_defaults
          (Configuration.set_preserve_exact_body_bytes g v))
        "preserve_exact_body_bytes" = some (.bool true) :=
      pyDictGet_update_mem _ _ _ _ htr h3
    show Except.ok
        (Options.getitem
          { data := [],
            defaults := Options.instance_defaults
              (Configuration.set_preserve_exact_body_bytes g v) }
          "preserve_exact_body_bytes")
      = Except.ok (OptVal.bool true)
    unfold Options.getitem
    rw [show pyDictGet ([] : List (String × OptVal)) "preserve_exact_body_bytes"
        = none from rfl, h4]
    rfl

theorem C9_process_wide_default_table_witness :
    (pyDictGet initGlobals.default_cassette_options "placeholders"
        = some (.dicts [])
      ∧ ((translate_cassette_options
          (Configuration.set_preserve_exact_body_bytes initGlobals
            (OptVal.bool false)).default_cassette_options).map
            Prod.fst).Nodup)
    ∧ ((Betamax.init initGlobals { adapters := [] } 50 none
          [("record_mode", OptVal.str "none")]).1.default_cassette_options
        = pyDictUpdate initGlobals.default_cassette_options
            [("record_mode", OptVal.str "none")]
      ∧ (Configuration.set_default_cassette_options initGlobals
          [("record_mode", OptVal.str "none")]).default_cassette_options
          = [("record_mode", OptVal.str "none")]
      ∧ pyDictGet
          (Configuration.define_cassette_placeholder initGlobals "TOKEN"
            "secret").default_cassette_options "placeholders"
          = some (.dicts ([] ++ [[("placeholder", "TOKEN"), ("replace", "secret")]]))
      ∧ (∀ o : Options, Options.init initGlobals [] = .ok o →
          o.defaults = pyDictUpdate Options.class_defaults
            (translate_cassette_options initGlobals.default_cassette_options))
      ∧ (Options.init
            (Configuration.set_preserve_exact_body_bytes initGlobals
              (OptVal.bool false)) []).map
          (fun o => Options.getitem o "preserve_exact_body_bytes")
          = .ok (.bool true)) :=
  ⟨⟨by decide, by decide⟩,
   C9_process_wide_default_table initGlobals { adapters := [] } 50 none
     [("record_mode", OptVal.str "none")] (OptVal.bool false) "TOKEN" "secret"
     [] [] (by decide) (by decide)⟩

end BetamaxSpec
